import Mathlib

/-!
Verification of `app.py` (talktomyresume): a shallow embedding of the
document loader, profile-context builder, system-prompt assembler and the
`/api/chat` request handler, together with theorems about their behaviour.

The filesystem is abstracted as a map from file names to contents; the
external chat-completion API is abstracted as a function from the outgoing
message list to either a reply string or an exception message.
-/

namespace TalkToMyResume

/-- A JSON value, as produced by `request.get_json`.  Objects are ordered
association lists with string keys (Python dicts with unique keys). -/
inductive JVal where
  | null : JVal
  | bool : Bool → JVal
  | num : Int → JVal
  | str : String → JVal
  | arr : List JVal → JVal
  | obj : List (String × JVal) → JVal

/-- Python truthiness of a JSON value (`if v:` / `v or default`). -/
def truthy : JVal → Bool
  | .null => false
  | .bool b => b
  | .num n => decide (n ≠ 0)
  | .str s => decide (s ≠ "")
  | .arr l => !l.isEmpty
  | .obj l => !l.isEmpty

/-- `fields.get(key)` on a Python dict: the value of the first matching key. -/
def dictGet (fields : List (String × JVal)) (key : String) : Option JVal :=
  match fields with
  | [] => none
  | (k, v) :: rest => if k = key then some v else dictGet rest key

/-- `data.get(key) or dflt`: the stored value when present and truthy,
otherwise the default. -/
def fieldOr (data : List (String × JVal)) (key : String) (dflt : JVal) : JVal :=
  match dictGet data key with
  | some v => if truthy v then v else dflt
  | none => dflt

/-- `s.strip()` on a string: remove leading and trailing whitespace. -/
def strip (s : String) : String :=
  ⟨List.reverse (List.dropWhile Char.isWhitespace
    (List.reverse (List.dropWhile Char.isWhitespace s.data)))⟩

/-- `v.strip()`: defined on strings only; on any other value Python raises
`AttributeError` (modelled as `none`). -/
def pyStrip : JVal → Option String
  | .str s => some (strip s)
  | _ => none

/-- `for item in v`: the sequence of elements Python iterates over.
Lists yield their elements, strings their characters (as one-character
strings), dicts their keys; numbers and booleans are not iterable
(`TypeError`, modelled as `none`). -/
def pyIter : JVal → Option (List JVal)
  | .arr l => some l
  | .str s => some (s.toList.map fun c => JVal.str (String.singleton c))
  | .obj fields => some (fields.map fun p => JVal.str p.1)
  | _ => none

/-- The filesystem visible to the app: text files are read whole; a PDF
file is a list of pages, each per-page `extract_text()` result being either
`none` (no text) or a string. `none` at the top level means the file does
not exist. -/
structure FS where
  textFile : String → Option String
  pdfFile : String → Option (List (Option String))

/-- `_read_text_file`: the content of the file when it exists, else `""`. -/
def read_text_file (fs : FS) (path : String) : String :=
  match fs.textFile path with
  | some content => content
  | none => ""

/-- `_read_pdf_file`: `""` when the file does not exist; otherwise the
per-page extracted texts (`extract_text() or ""`), keeping the non-empty
ones, joined with newlines. -/
def read_pdf_file (fs : FS) (path : String) : String :=
  match fs.pdfFile path with
  | none => ""
  | some pages =>
      String.intercalate "\n" ((pages.map fun o => o.getD "").filter fun c => c ≠ "")

/-- `load_section`: try `<name>.txt`; if its trimmed content is empty try
`<name>.pdf`; for the `"resume"` section, if still empty, try the
hardcoded `Ashish_Jaiswal.pdf`. -/
def load_section (fs : FS) (name : String) : String :=
  let text := read_text_file fs (name ++ ".txt")
  let text := if strip text = "" then read_pdf_file fs (name ++ ".pdf") else text
  if name = "resume" ∧ strip text = "" then read_pdf_file fs "Ashish_Jaiswal.pdf"
  else text

/-- The instructional placeholder used when no profile data is found. -/
def PLACEHOLDER : String :=
  "No profile data is available yet. Please add your resume/LinkedIn text or PDFs " ++
  "to the data/ directory as resume.txt / resume.pdf and linkedin.txt / linkedin.pdf."

/-- `build_profile_context`: the non-empty sections, each under a heading,
joined by blank lines; the placeholder when both sections are empty. -/
def build_profile_context (fs : FS) : String :=
  let resume := load_section fs "resume"
  let linkedin := load_section fs "linkedin"
  let parts : List String :=
    (if strip resume = "" then [] else ["## Resume\n" ++ resume]) ++
    (if strip linkedin = "" then [] else ["## LinkedIn Profile\n" ++ linkedin])
  let parts := if parts = [] then [PLACEHOLDER] else parts
  String.intercalate "\n\n" parts

/-- `SYSTEM_PROMPT`: persona statement, fixed instructions, then the
profile context, as one string. -/
def SYSTEM_PROMPT (personName profileContext : String) : String :=
  "You are acting as " ++ personName ++ ". You are answering questions from recruiters about " ++
  personName ++ "\x27s career, background, skills, and experience. Your responsibility is to " ++
  "represent " ++ personName ++ " as faithfully and accurately as possible, based only on the " ++
  "information provided.\n\n" ++
  "Use the resume and LinkedIn information below to answer questions. If you don\x27t know " ++
  "the answer from this information, say that you are not sure instead of inventing details.\n\n" ++
  profileContext

/-- An outgoing chat message `{role, content}`. -/
structure Msg where
  role : String
  content : String
deriving DecidableEq, Repr

/-- The history-normalisation step applied to one history item: a mapping
whose `role` is `"user"` or `"assistant"` and whose `content` is a string
yields a message; anything else is skipped. -/
def validHistoryItem : JVal → Option Msg
  | .obj fields =>
      match dictGet fields "role", dictGet fields "content" with
      | some (.str r), some (.str c) =>
          if r = "user" ∨ r = "assistant" then some ⟨r, c⟩ else none
      | _, _ => none
  | _ => none

/-- The shape check the spec describes for a history item: a mapping with
`role` in `{"user","assistant"}` and string `content`. -/
def conformsShape : JVal → Bool
  | .obj fields =>
      (match dictGet fields "role" with
       | some (.str r) => decide (r = "user" ∨ r = "assistant")
       | _ => false) &&
      (match dictGet fields "content" with
       | some (.str _) => true
       | _ => false)
  | _ => false

/-- The outgoing message sequence: the system prompt, the normalised
history, then the user message. -/
def buildMessages (sysPrompt : String) (items : List JVal) (message : String) : List Msg :=
  ⟨"system", sysPrompt⟩ :: (items.filterMap validHistoryItem ++ [⟨"user", message⟩])

/-- The HTTP outcome of a request: a JSON response with a status code, or
an unhandled exception escaping the handler. -/
inductive HttpResult where
  | response : Nat → JVal → HttpResult
  | crash : HttpResult

/-- `chat` up to (but not including) the external call: either an early
outcome (validation error or unhandled exception), or the message list to
send to the completion API. -/
def chatCore (sysPrompt : String) (data : List (String × JVal)) :
    HttpResult ⊕ List Msg :=
  match pyStrip (fieldOr data "message" (.str "")) with
  | none => .inl .crash
  | some message =>
      if message = "" then
        .inl (.response 400 (.obj [("error", .str "message is required")]))
      else
        match pyIter (fieldOr data "history" (.arr [])) with
        | none => .inl .crash
        | some items => .inr (buildMessages sysPrompt items message)

/-- The outcome of the `try` block: a 200 reply on success, a 500 error
response carrying the exception description on failure. -/
def dispatch : Except String String → HttpResult
  | .ok reply => .response 200 (.obj [("reply", .str reply)])
  | .error e => .response 500 (.obj [("error", .str e)])

/-- The `/api/chat` handler, for a request body that parsed to a JSON
object with fields `data`, given the process-wide system prompt and the
external completion API `api`. -/
def chat (sysPrompt : String) (api : List Msg → Except String String)
    (data : List (String × JVal)) : HttpResult :=
  match chatCore sysPrompt data with
  | .inl r => r
  | .inr msgs => dispatch (api msgs)

end TalkToMyResume

namespace TalkToMyResume

/-! ### Helper lemmas -/

theorem strip_empty : strip "" = "" := rfl

theorem length_append_pos_left (s t : String) (hs : 0 < s.length) :
    0 < (s ++ t).length := by
  rw [String.length_append]; omega

end TalkToMyResume

namespace TalkToMyResume

set_option maxRecDepth 4000 in
/-- Claim C5: for every filesystem state (sections present, absent, empty or
non-empty in any combination), `build_profile_context` returns a non-empty
string — either labeled section content or the fixed placeholder. -/
theorem build_profile_context_nonempty (fs : FS) :
    0 < (build_profile_context fs).length := by
  unfold build_profile_context
  by_cases hr : strip (load_section fs "resume") = "" <;>
  by_cases hl : strip (load_section fs "linkedin") = "" <;>
    simp only [hr, hl, ite_true, ite_false, reduceIte, List.nil_append,
      List.append_nil, List.cons_append, List.cons_ne_nil,
      String.intercalate, String.intercalate.go]
  · decide
  · exact length_append_pos_left _ _ (by decide)
  · exact length_append_pos_left _ _ (by decide)
  · exact length_append_pos_left _ _
      (length_append_pos_left _ _ (length_append_pos_left _ _ (by decide)))

/-- Claim C6: when `<name>.txt` has non-empty trimmed content,
`load_section` returns exactly the content of the text file; the result does not
depend on any PDF file. -/
theorem load_section_txt_precedence (fs : FS) (name : String)
    (h : strip (read_text_file fs (name ++ ".txt")) ≠ "") :
    load_section fs name = read_text_file fs (name ++ ".txt") := by
  unfold load_section
  simp [h]

def fsC6 : FS :=
  ⟨fun p => if p = "resume.txt" then some "TXT" else none,
   fun p => if p = "resume.pdf" then some [some "PDF"] else none⟩

theorem load_section_txt_precedence_w :
    load_section fsC6 "resume" = read_text_file fsC6 ("resume" ++ ".txt") :=
  load_section_txt_precedence fsC6 "resume" (by decide)

end TalkToMyResume

namespace TalkToMyResume

/-- Claim C7: when both `resume.txt` and `resume.pdf` yield empty or
whitespace-only text, `load_section` falls back to extracting text from the
hardcoded `Ashish_Jaiswal.pdf`; and for every section other than
`"resume"` the result is determined by the txt/pdf chain alone — the
alternate file is never consulted. -/
theorem load_section_resume_fallback (fs : FS)
    (h1 : strip (read_text_file fs "resume.txt") = "")
    (h2 : strip (read_pdf_file fs "resume.pdf") = "") :
    load_section fs "resume" = read_pdf_file fs "Ashish_Jaiswal.pdf" ∧
    ∀ (fs2 : FS) (name : String), name ≠ "resume" →
      load_section fs2 name =
        (if strip (read_text_file fs2 (name ++ ".txt")) = ""
         then read_pdf_file fs2 (name ++ ".pdf")
         else read_text_file fs2 (name ++ ".txt")) := by
  constructor
  · simp only [load_section]
    have e1 : ("resume" ++ ".txt" : String) = "resume.txt" := rfl
    have e2 : ("resume" ++ ".pdf" : String) = "resume.pdf" := rfl
    rw [e1, e2, if_pos h1]
    simp [h2]
  · intro fs2 name hn
    simp only [load_section]
    simp [hn]

def fsC7 : FS :=
  ⟨fun _ => none,
   fun p => if p = "Ashish_Jaiswal.pdf" then some [some "ALT", none] else none⟩

theorem load_section_resume_fallback_w :
    load_section fsC7 "resume" = read_pdf_file fsC7 "Ashish_Jaiswal.pdf" :=
  (load_section_resume_fallback fsC7 (by decide) (by decide)).1

/-- Claim C8: when every source yields empty text (missing files included,
since a missing file reads as `""`), `load_section` returns the empty
string; `load_section` is a total function — a missing file is treated as
absent content, never as an error. -/
theorem load_section_all_empty (fs : FS) (name : String)
    (h1 : read_text_file fs (name ++ ".txt") = "")
    (h2 : read_pdf_file fs (name ++ ".pdf") = "")
    (h3 : read_pdf_file fs "Ashish_Jaiswal.pdf" = "") :
    load_section fs name = "" := by
  simp only [load_section]
  rw [h1, strip_empty, if_pos rfl, h2, strip_empty]
  by_cases hn : name = "resume"
  · rw [if_pos ⟨hn, rfl⟩, h3]
  · rw [if_neg (fun hc => hn hc.1)]

def fsC8 : FS := ⟨fun _ => none, fun _ => none⟩

theorem load_section_all_empty_w : load_section fsC8 "linkedin" = "" :=
  load_section_all_empty fsC8 "linkedin" rfl rfl rfl

end TalkToMyResume

namespace TalkToMyResume

theorem chatCore_str_arr (sysPrompt m : String) (hist : List JVal)
    (hm : strip m ≠ "") :
    chatCore sysPrompt [("message", JVal.str m), ("history", JVal.arr hist)] =
      Sum.inr (buildMessages sysPrompt hist (strip m)) := by
  have hm0 : m ≠ "" := by
    intro h; exact hm (by rw [h, strip_empty])
  cases hist with
  | nil =>
      simp [chatCore, fieldOr, dictGet, truthy, pyStrip, pyIter, hm0, hm]
  | cons a t =>
      simp [chatCore, fieldOr, dictGet, truthy, pyStrip, pyIter, hm0, hm]

/-- Claim C1: for a request whose message trims to a non-empty string and
whose history is a JSON array, the handler calls the completion API on
exactly `[system prompt] ++ filtered history (in order) ++ [trimmed user
message]`, and its result is determined by the answer of the API on that list. -/
theorem chat_outgoing_sequence (sysPrompt m : String) (hist : List JVal)
    (api : List Msg → Except String String) (hm : strip m ≠ "") :
    chat sysPrompt api [("message", JVal.str m), ("history", JVal.arr hist)] =
      dispatch (api (⟨"system", sysPrompt⟩ ::
        (hist.filterMap validHistoryItem ++ [⟨"user", strip m⟩]))) := by
  unfold chat
  rw [chatCore_str_arr sysPrompt m hist hm]
  rfl

theorem chat_outgoing_sequence_w :
    chat "SP" (fun msgs => Except.ok (toString msgs.length))
        [("message", JVal.str " Hi "),
         ("history", JVal.arr [JVal.obj [("role", JVal.str "system"), ("content", JVal.str "x")],
                               JVal.obj [("role", JVal.str "user"), ("content", JVal.str "hello")]])] =
      dispatch ((fun msgs => Except.ok (toString msgs.length))
        (⟨"system", "SP"⟩ ::
          (([JVal.obj [("role", JVal.str "system"), ("content", JVal.str "x")],
             JVal.obj [("role", JVal.str "user"), ("content", JVal.str "hello")]].filterMap validHistoryItem)
            ++ [⟨"user", strip " Hi "⟩]))) :=
  chat_outgoing_sequence "SP" " Hi "
    [JVal.obj [("role", JVal.str "system"), ("content", JVal.str "x")],
     JVal.obj [("role", JVal.str "user"), ("content", JVal.str "hello")]]
    (fun msgs => Except.ok (toString msgs.length)) (by decide)

end TalkToMyResume

namespace TalkToMyResume

/-- Claim C2: when the message field is missing, or is a string that is
empty or whitespace-only after trimming, the handler answers 400 with
`{"error": "message is required"}`; the result holds for every completion
API `api`, so the external API is never consulted. -/
theorem chat_message_required (sysPrompt : String)
    (api : List Msg → Except String String) (data : List (String × JVal))
    (hm : dictGet data "message" = none ∨
          ∃ s, dictGet data "message" = some (JVal.str s) ∧ strip s = "") :
    chat sysPrompt api data =
      HttpResult.response 400 (JVal.obj [("error", JVal.str "message is required")]) := by
  unfold chat chatCore fieldOr
  rcases hm with h | ⟨s, hs, hstrip⟩
  · rw [h]; simp [pyStrip, strip_empty]
  · rw [hs]
    by_cases he : s = ""
    · subst he; simp [truthy, pyStrip, strip_empty]
    · simp [truthy, he, pyStrip, hstrip]

theorem chat_message_required_w :
    chat "SP" (fun _ => Except.ok "r") [("message", JVal.str "  ")] =
      HttpResult.response 400 (JVal.obj [("error", JVal.str "message is required")]) :=
  chat_message_required "SP" (fun _ => Except.ok "r") [("message", JVal.str "  ")]
    (Or.inr ⟨"  ", rfl, by decide⟩)

/-- Claim C3: for a valid message, when the completion API fails with
exception description `e` on the assembled message list, the handler
catches it and answers 500 with `{"error": e}` from that single call. -/
theorem chat_upstream_error (sysPrompt m e : String) (hist : List JVal)
    (api : List Msg → Except String String) (hm : strip m ≠ "")
    (he : api (⟨"system", sysPrompt⟩ ::
            (hist.filterMap validHistoryItem ++ [⟨"user", strip m⟩])) = Except.error e) :
    chat sysPrompt api [("message", JVal.str m), ("history", JVal.arr hist)] =
      HttpResult.response 500 (JVal.obj [("error", JVal.str e)]) := by
  unfold chat
  rw [chatCore_str_arr sysPrompt m hist hm]
  show dispatch (api (buildMessages sysPrompt hist (strip m))) = _
  rw [show buildMessages sysPrompt hist (strip m) = ⟨"system", sysPrompt⟩ ::
        (hist.filterMap validHistoryItem ++ [⟨"user", strip m⟩]) from rfl, he]
  rfl

theorem chat_upstream_error_w :
    chat "SP" (fun _ => Except.error "boom") [("message", JVal.str "Hi"), ("history", JVal.arr [])] =
      HttpResult.response 500 (JVal.obj [("error", JVal.str "boom")]) :=
  chat_upstream_error "SP" "Hi" "boom" [] (fun _ => Except.error "boom") (by decide) rfl

end TalkToMyResume

namespace TalkToMyResume

theorem validHistoryItem_none (item : JVal) (h : conformsShape item = false) :
    validHistoryItem item = none := by
  cases item with
  | obj fields =>
      rw [conformsShape] at h
      rw [validHistoryItem]
      rcases hr : dictGet fields "role" with _ | r <;>
        rcases hc : dictGet fields "content" with _ | c <;>
        rw [hr, hc] at h <;>
        first
          | rfl
          | (cases r <;> first
              | rfl
              | (cases c <;> first | rfl | simp_all))
  | null => rfl
  | bool b => rfl
  | num n => rfl
  | str s => rfl
  | arr l => rfl

theorem filterMap_filter_conform (hist : List JVal) :
    hist.filterMap validHistoryItem =
      (hist.filter fun i => conformsShape i).filterMap validHistoryItem := by
  induction hist with
  | nil => rfl
  | cons a t ih =>
      by_cases h : conformsShape a = true
      · simp only [List.filter_cons, h, ite_true, List.filterMap_cons, ih]
      · have hn := validHistoryItem_none a (by simpa using h)
        simp [List.filter_cons, h, List.filterMap_cons, hn, ih]

/-- Claim C4: every history item that is not a mapping with `role` in
`{"user","assistant"}` and a string `content` is dropped silently — it
contributes nothing to the outgoing sequence — while the request is still
answered through the API on the conforming items in their original order. -/
theorem chat_history_shape_filter (sysPrompt m : String) (hist : List JVal)
    (api : List Msg → Except String String) (hm : strip m ≠ "") :
    (∀ item, conformsShape item = false → validHistoryItem item = none) ∧
    chat sysPrompt api [("message", JVal.str m), ("history", JVal.arr hist)] =
      dispatch (api (⟨"system", sysPrompt⟩ ::
        ((hist.filter fun i => conformsShape i).filterMap validHistoryItem
          ++ [⟨"user", strip m⟩]))) := by
  refine ⟨fun item h => validHistoryItem_none item h, ?_⟩
  unfold chat
  rw [chatCore_str_arr sysPrompt m hist hm]
  rw [show buildMessages sysPrompt hist (strip m) = ⟨"system", sysPrompt⟩ ::
        (hist.filterMap validHistoryItem ++ [⟨"user", strip m⟩]) from rfl,
      filterMap_filter_conform]

theorem chat_history_shape_filter_w :
    (∀ item, conformsShape item = false → validHistoryItem item = none) ∧
    chat "SP" (fun _ => Except.ok "r")
        [("message", JVal.str "Hi"),
         ("history", JVal.arr [JVal.str "junk",
                               JVal.obj [("role", JVal.str "system"), ("content", JVal.str "x")],
                               JVal.obj [("role", JVal.str "user"), ("content", JVal.str "hello")]])] =
      dispatch ((fun _ => Except.ok "r")
        (⟨"system", "SP"⟩ ::
          (([JVal.str "junk",
             JVal.obj [("role", JVal.str "system"), ("content", JVal.str "x")],
             JVal.obj [("role", JVal.str "user"), ("content", JVal.str "hello")]].filter
               fun i => conformsShape i).filterMap validHistoryItem
            ++ [⟨"user", strip "Hi"⟩]))) :=
  chat_history_shape_filter "SP" "Hi"
    [JVal.str "junk",
     JVal.obj [("role", JVal.str "system"), ("content", JVal.str "x")],
     JVal.obj [("role", JVal.str "user"), ("content", JVal.str "hello")]]
    (fun _ => Except.ok "r") (by decide)

end TalkToMyResume

namespace TalkToMyResume

theorem chatCore_inr_head (sp : String) (d : List (String × JVal)) (msgs : List Msg)
    (h : chatCore sp d = Sum.inr msgs) : msgs.head? = some ⟨"system", sp⟩ := by
  unfold chatCore at h
  split at h
  · exact absurd h (by simp)
  · split at h
    · exact absurd h (by simp)
    · split at h
      · exact absurd h (by simp)
      · rw [Sum.inr.injEq] at h
        subst h
        rfl

/-- Claim C9: the system prompt is a fixed function of the persona name and
profile context alone; whenever the handler reaches the external call, the
head of the outgoing sequence is that same constant system message, for any
two requests with any messages and histories. -/
theorem system_prompt_constant (pn ctx : String) (d1 d2 : List (String × JVal))
    (m1 m2 : List Msg)
    (h1 : chatCore (SYSTEM_PROMPT pn ctx) d1 = Sum.inr m1)
    (h2 : chatCore (SYSTEM_PROMPT pn ctx) d2 = Sum.inr m2) :
    m1.head? = some ⟨"system", SYSTEM_PROMPT pn ctx⟩ ∧ m1.head? = m2.head? := by
  have a1 := chatCore_inr_head _ _ _ h1
  have a2 := chatCore_inr_head _ _ _ h2
  exact ⟨a1, a1.trans a2.symm⟩

theorem system_prompt_constant_w :
    ([⟨"system", SYSTEM_PROMPT "Ada" "CTX"⟩, ⟨"user", "Hi"⟩] : List Msg).head? =
        some ⟨"system", SYSTEM_PROMPT "Ada" "CTX"⟩ ∧
    ([⟨"system", SYSTEM_PROMPT "Ada" "CTX"⟩, ⟨"user", "Hi"⟩] : List Msg).head? =
        ([⟨"system", SYSTEM_PROMPT "Ada" "CTX"⟩, ⟨"user", "Yo"⟩] : List Msg).head? :=
  system_prompt_constant "Ada" "CTX"
    [("message", JVal.str "Hi")] [("message", JVal.str "Yo")]
    [⟨"system", SYSTEM_PROMPT "Ada" "CTX"⟩, ⟨"user", "Hi"⟩]
    [⟨"system", SYSTEM_PROMPT "Ada" "CTX"⟩, ⟨"user", "Yo"⟩] rfl rfl

/-- Claim C10: a request whose message field holds a truthy non-string JSON
value makes the handler raise an unhandled exception (`.strip()` on a
non-string) instead of answering with a validation error or any JSON
reply. -/
theorem chat_nonstring_message_crash (sysPrompt : String)
    (api : List Msg → Except String String) (data : List (String × JVal)) (v : JVal)
    (hv : dictGet data "message" = some v) (ht : truthy v = true)
    (hs : ∀ s, v ≠ JVal.str s) :
    chat sysPrompt api data = HttpResult.crash := by
  cases v with
  | str s => exact absurd rfl (hs s)
  | null => exact absurd ht (by simp [truthy])
  | bool b => unfold chat chatCore fieldOr; rw [hv]; simp [ht, pyStrip]
  | num n => unfold chat chatCore fieldOr; rw [hv]; simp [ht, pyStrip]
  | arr l => unfold chat chatCore fieldOr; rw [hv]; simp [ht, pyStrip]
  | obj l => unfold chat chatCore fieldOr; rw [hv]; simp [ht, pyStrip]

theorem chat_nonstring_message_crash_w :
    chat "SP" (fun _ => Except.ok "r") [("message", JVal.num 5)] = HttpResult.crash :=
  chat_nonstring_message_crash "SP" (fun _ => Except.ok "r")
    [("message", JVal.num 5)] (JVal.num 5) rfl (by decide)
    (fun s h => JVal.noConfusion h)

end TalkToMyResume
